import Mathlib

/-!
# Verification of the Enterprise MCP proxy middleware pipeline

Shallow embedding of the middleware pipeline and proxy forwarding engine of
the `enterprise-mcp-framework` repository:

* `framework/proxy/middleware.py` — `Request`, `Response`, `Middleware`,
  `MiddlewareChain`;
* `framework/proxy/server.py` — `EnterpriseProxy.handle_request`;
* `framework/security/middleware.py`, `framework/observability/middleware.py`,
  `framework/governance/middleware.py`, `framework/cost_management/middleware.py`
  — the four concrete middleware stages.

Modelling conventions:

* Wire bytes are modelled at the level of their JSON parse result: a value of
  `Option Json`, where `none` stands for bytes that `json.loads` rejects and
  `some v` for bytes parsing to the JSON value `v`.  `json.dumps` of an
  internally constructed value followed by `json.loads` is the identity on the
  `Json` model, so encoders produce `Json` directly.
* Python `None` inside a JSON-valued field is modelled as `Json.null`
  (`json.dumps` serialises `None` as `null`, and `dict.get` returns `None`
  both for an absent key and for an explicit `null`, so the two are already
  conflated in the source).
* JSON numbers are modelled as rationals (`Rat`); the source never performs
  arithmetic on them beyond subtraction of timestamps.
* Python dictionaries are association lists (`JsonFields`) with first-match
  lookup and in-place overwrite on assignment; the source only ever builds
  them with distinct keys.
* A raised exception in a `process_request` stage is modelled as
  `Except.error msg` where `msg` is `str(e)` — the only part of the exception
  that `handle_request` observes (`Response.error(str(e))`).
* `time.time()` and `uuid.uuid4()` are modelled as explicit parameters
  (`now : Rat`, `freshId : String`).
-/

mutual

/-- JSON value tree, the codomain of `json.loads`. -/
inductive Json where
  | null : Json
  | bool : Bool → Json
  | num : Rat → Json
  | str : String → Json
  | arr : JsonList → Json
  | obj : JsonFields → Json
deriving DecidableEq

/-- A JSON array's elements. -/
inductive JsonList where
  | nil : JsonList
  | cons : Json → JsonList → JsonList
deriving DecidableEq

/-- A JSON object's members, in insertion order. -/
inductive JsonFields where
  | nil : JsonFields
  | cons : String → Json → JsonFields → JsonFields
deriving DecidableEq

end

/-- Whether a JSON array is empty. -/
def JsonList.isEmpty : JsonList → Bool
  | .nil => true
  | .cons _ _ => false

/-- Whether a JSON object is empty. -/
def JsonFields.isEmpty : JsonFields → Bool
  | .nil => true
  | .cons _ _ _ => false

/-- Python dictionary lookup `d[k]` / membership: first matching key. -/
def JsonFields.lookup : JsonFields → String → Option Json
  | .nil, _ => none
  | .cons k' v rest, k => if k' = k then some v else rest.lookup k

/-- Python `d.get(k, default)`. -/
def JsonFields.getD (d : JsonFields) (k : String) (default : Json) : Json :=
  (d.lookup k).getD default

/-- Python dictionary assignment `d[k] = v`: overwrite in place if the key
exists, otherwise append (insertion order preserved). -/
def JsonFields.set : JsonFields → String → Json → JsonFields
  | .nil, k, v => .cons k v .nil
  | .cons k' v' rest, k, v =>
      if k' = k then .cons k v rest else .cons k' v' (rest.set k v)

/-- Python truthiness of a JSON value (`if self.error:`):
`None`, `False`, `0`, `""`, `[]` and `{}` are falsy, everything else truthy. -/
def Json.truthy : Json → Bool
  | .null => false
  | .bool b => b
  | .num n => n != 0
  | .str s => s != ""
  | .arr xs => !xs.isEmpty
  | .obj o => !o.isEmpty

/-- Whether an encoded envelope (a JSON object) contains a member named `k`. -/
def Json.hasKey (j : Json) (k : String) : Bool :=
  match j with
  | .obj o => (o.lookup k).isSome
  | _ => false

/-- Python `str()` of a JSON value, as used inside f-string error messages.
Only the `str` case is relied upon by the theorems below (the fields the
source interpolates into messages are string-valued there). -/
def Json.pyStr : Json → String
  | .null => "None"
  | .bool true => "True"
  | .bool false => "False"
  | .num n => toString n
  | .str s => s
  | .arr _ => "[...]"
  | .obj _ => "\x7b...\x7d"

/-- `Request` dataclass of `framework/proxy/middleware.py`.  The dataclass has
no runtime type enforcement, so the wire-derived fields are modelled as
arbitrary JSON values. -/
structure Request where
  method : Json
  params : Json
  id : Json
  jsonrpc : Json
  metadata : JsonFields
  timestamp : Rat
deriving DecidableEq

/-- `Request.from_bytes`: `json.loads` the data, then read fields with
`obj.get` and defaults (`method` → `""`, `params` → `{}`, `id` → a fresh
uuid, `jsonrpc` → `"2.0"`).  Any exception — unparseable bytes, or a parsed
value that is not an object (so `obj.get` raises `AttributeError`) — is
caught and re-raised as `ValueError("Invalid MCP request: ...")`. -/
def Request.from_bytes (data : Option Json) (freshId : String) (now : Rat) :
    Except String Request :=
  match data with
  | some (Json.obj o) =>
      .ok { method := o.getD "method" (.str "")
            params := o.getD "params" (.obj .nil)
            id := o.getD "id" (.str freshId)
            jsonrpc := o.getD "jsonrpc" (.str "2.0")
            metadata := .nil
            timestamp := now }
  | _ => .error "Invalid MCP request"

/-- `Request.to_bytes`: serialise the four wire fields (metadata and
timestamp are not transmitted). -/
def Request.to_bytes (req : Request) : Json :=
  .obj (.cons "jsonrpc" req.jsonrpc (.cons "method" req.method
    (.cons "params" req.params (.cons "id" req.id .nil))))

/-- `Response` dataclass of `framework/proxy/middleware.py`. -/
structure Response where
  result : Json
  error : Json
  id : Json
  jsonrpc : Json
  metadata : JsonFields
  timestamp : Rat
deriving DecidableEq

/-- `Response.from_bytes`: `json.loads`, then `obj.get` with defaults
(`result`/`error`/`id` → `None`, `jsonrpc` → `"2.0"`). -/
def Response.from_bytes (data : Option Json) (now : Rat) :
    Except String Response :=
  match data with
  | some (Json.obj o) =>
      .ok { result := o.getD "result" .null
            error := o.getD "error" .null
            id := o.getD "id" .null
            jsonrpc := o.getD "jsonrpc" (.str "2.0")
            metadata := .nil
            timestamp := now }
  | _ => .error "Invalid MCP response"

/-- `Response.to_bytes`: emit `jsonrpc` and `id`, then the `error` member if
`self.error` is truthy, otherwise the `result` member. -/
def Response.to_bytes (resp : Response) : Json :=
  if resp.error.truthy then
    .obj (.cons "jsonrpc" resp.jsonrpc (.cons "id" resp.id
      (.cons "error" resp.error .nil)))
  else
    .obj (.cons "jsonrpc" resp.jsonrpc (.cons "id" resp.id
      (.cons "result" resp.result .nil)))

/-- The `Response.error` classmethod (named `errorResponse` here because the
field `error` occupies that name): builds an error response with the given
message and code (the call sites use the default code `-32603`), leaving
`result` and `id` as `None`. -/
def Response.errorResponse (message : String) (code : Rat) : Response :=
  { result := .null
    error := .obj (.cons "code" (.num code) (.cons "message" (.str message) .nil))
    id := .null
    jsonrpc := .str "2.0"
    metadata := .nil
    timestamp := 0 }

/-- A middleware stage: `process_request` may raise (modelled as `.error`
with the exception's message); `process_response` is total (none of the four
concrete stages raises on the response path). -/
structure Middleware where
  process_request : Request → Except String Request
  process_response : Response → Request → Response

/-- `MiddlewareChain.process_request`: fold the stages left to right; a
raised exception propagates, skipping the remaining stages. -/
def processRequest : List Middleware → Request → Except String Request
  | [], req => .ok req
  | mw :: rest, req => do
      let req' ← mw.process_request req
      processRequest rest req'

/-- `MiddlewareChain.process_response`: fold the stages in reverse order;
every stage runs. -/
def processResponse (chain : List Middleware) (resp : Response) (req : Request) :
    Response :=
  chain.reverse.foldl (fun r mw => mw.process_response r req) resp

/-- Instrumentation: positions (0-based indices into the configured chain)
whose `process_request` is invoked, in invocation order, starting the count
at `i`. -/
def requestVisitOrderAux : List Middleware → Request → Nat → List Nat
  | [], _, _ => []
  | mw :: rest, req, i =>
      match mw.process_request req with
      | .error _ => [i]
      | .ok req' => i :: requestVisitOrderAux rest req' (i + 1)

/-- Positions visited by `MiddlewareChain.process_request`, in order. -/
def requestVisitOrder (chain : List Middleware) (req : Request) : List Nat :=
  requestVisitOrderAux chain req 0

/-- Instrumented reverse traversal: run the stages of an indexed list in the
given order, returning the final response and the indices in visit order. -/
def responseVisitAux : List (Nat × Middleware) → Response → Request →
    Response × List Nat
  | [], resp, _ => (resp, [])
  | (i, mw) :: rest, resp, req =>
      let resp' := mw.process_response resp req
      let (resp'', is) := responseVisitAux rest resp' req
      (resp'', i :: is)

/-- Instrumented `MiddlewareChain.process_response`: the source iterates
`reversed(self.middleware)`, so the indexed chain is reversed before the
traversal. -/
def processResponseT (chain : List Middleware) (resp : Response)
    (req : Request) : Response × List Nat :=
  responseVisitAux chain.enum.reverse resp req

/-- Abstract backend transport for `MCPRouter.forward`: consumes the encoded
request and either raises (modelled as `.error msg`, the message of the
exception `forward` re-raises) or returns raw response bytes. -/
def Router : Type := Json → Except String (Option Json)

/-- `EnterpriseProxy.handle_request`: decode, forward-process, route, decode,
reverse-process, encode; any exception anywhere in the `try` block is caught
and turned into `Response.error(str(e)).to_bytes()` (default code `-32603`).

The source passes the variable `request` to `process_response`; because every
stage mutates the request in place and returns the same object, that variable
is the same object as `processed_request` by then, so the model passes the
processed request. -/
def handle_request (chain : List Middleware) (router : Router)
    (freshId : String) (now : Rat) (raw_request : Option Json) : Json :=
  match (do
      let request ← Request.from_bytes raw_request freshId now
      let processed ← processRequest chain request
      let raw_response ← router processed.to_bytes
      let response ← Response.from_bytes raw_response now
      pure (processResponse chain response processed).to_bytes :
      Except String Json) with
  | .ok out => out
  | .error e => (Response.errorResponse e (-32603)).to_bytes

/-- Observable outcome of one `handle_request` call, instrumented with which
parts of the pipeline ran. -/
structure HandleResult where
  /-- Whether `self.router.forward` was invoked. -/
  router_called : Bool
  /-- Whether `self.middleware.process_response` was invoked. -/
  response_traversed : Bool
  /-- The `Response` object whose `to_bytes()` is returned to the client. -/
  client_response : Response
deriving DecidableEq

/-- Instrumented `EnterpriseProxy.handle_request`, recording whether the
router and the response traversal ran and which `Response` object is
serialised back to the client. -/
def handle_requestT (chain : List Middleware) (router : Router)
    (freshId : String) (now : Rat) (raw_request : Option Json) : HandleResult :=
  match Request.from_bytes raw_request freshId now with
  | .error e => ⟨false, false, Response.errorResponse e (-32603)⟩
  | .ok request =>
      match processRequest chain request with
      | .error e => ⟨false, false, Response.errorResponse e (-32603)⟩
      | .ok processed =>
          match router processed.to_bytes with
          | .error e => ⟨true, false, Response.errorResponse e (-32603)⟩
          | .ok raw_response =>
              match Response.from_bytes raw_response now with
              | .error e => ⟨true, false, Response.errorResponse e (-32603)⟩
              | .ok response =>
                  ⟨true, true, processResponse chain response processed⟩

/-- `ApprovalConfig` of `framework/config.py`. -/
structure ApprovalConfig where
  name : String
  operations : List String
  approvers : List String
  required_approvals : Nat
  timeout_seconds : Nat

/-- `AuditConfig` of `framework/config.py` (the storage fields do not affect
the pipeline's control flow and are omitted). -/
structure AuditConfig where
  enabled : Bool

/-- `GovernanceConfig` of `framework/config.py` (policy/compliance fields are
unused by the middleware logic and omitted). -/
structure GovernanceConfig where
  approvals : List ApprovalConfig
  audit : AuditConfig

/-- `RateLimitConfig` of `framework/config.py` (only `enabled` is read). -/
structure RateLimitConfig where
  enabled : Bool

/-- `BudgetConfig` of `framework/config.py` (only `enabled` is read). -/
structure BudgetConfig where
  enabled : Bool

/-- `CostConfig` of `framework/config.py`. -/
structure CostConfig where
  tracking_enabled : Bool
  rate_limits : RateLimitConfig
  budget : BudgetConfig

namespace SecurityMiddleware

/-- `SecurityMiddleware._authorize`: the source stub allows every operation. -/
def authorize (user : String) (operation : Json) : Bool :=
  true

/-- `SecurityMiddleware._authenticate`: the source stub resolves every request
to the mock user `"demo_user"`. -/
def authenticateStub : Request → Option String :=
  fun _ => some "demo_user"

/-- `SecurityMiddleware.process_request`, parameterised by the authentication
collaborator (`authenticate req = none` models `_authenticate` resolving no
user, i.e. an unauthenticated request; the source stub is
`authenticateStub`).  The `PermissionError` is raised before
`metadata["user"]` is assigned, so an aborted request never carries a user. -/
def process_request (authenticate : Request → Option String)
    (rbac_enabled : Bool) (req : Request) : Except String Request :=
  match authenticate req with
  | none => .error "Authentication failed"
  | some user =>
      let req' : Request := { req with metadata := req.metadata.set "user" (.str user) }
      if rbac_enabled && !(authorize user req'.method) then
        .error ("User " ++ user ++ " not authorized for " ++ req'.method.pyStr)
      else
        .ok req'

end SecurityMiddleware

/-- The security stage as a `Middleware` (its `process_response` only has a
stubbed encryption step and returns the response unchanged). -/
def securityMiddleware (authenticate : Request → Option String)
    (rbac_enabled : Bool) : Middleware :=
  { process_request := SecurityMiddleware.process_request authenticate rbac_enabled
    process_response := fun resp _ => resp }

namespace ObservabilityMiddleware

/-- `ObservabilityMiddleware.process_request`: stamp
`metadata["start_time"]` with the current time; never raises. -/
def process_request (now : Rat) (req : Request) : Except String Request :=
  .ok { req with metadata := req.metadata.set "start_time" (.num now) }

/-- `ObservabilityMiddleware.process_response`: compute
`duration = time.time() - request.metadata.get("start_time", time.time())`
and record it in `response.metadata["duration_seconds"]`.  `start_time` is
only ever written as a number (by `process_request` above), so the model
reads it as a number, falling back to `now` when absent. -/
def process_response (now : Rat) (resp : Response) (req : Request) : Response :=
  let start : Rat :=
    match req.metadata.lookup "start_time" with
    | some (Json.num t) => t
    | _ => now
  { resp with metadata := resp.metadata.set "duration_seconds" (.num (now - start)) }

end ObservabilityMiddleware

/-- The observability stage as a `Middleware`, with `time.time()` modelled by
the supplied clock value. -/
def observabilityMiddleware (now : Rat) : Middleware :=
  { process_request := ObservabilityMiddleware.process_request now
    process_response := ObservabilityMiddleware.process_response now }

namespace GovernanceMiddleware

/-- `GovernanceMiddleware._requires_approval`: true iff
`request.method in approval_config.operations` for some configured approval
rule (Python `in` compares with `==`, which is `False` between a non-string
method and the listed operation strings). -/
def requires_approval (config : GovernanceConfig) (req : Request) : Bool :=
  config.approvals.any fun ac =>
    match req.method with
    | .str s => ac.operations.contains s
    | _ => false

/-- `GovernanceMiddleware._get_approval`: the source stub auto-approves every
request with the token `"auto_approved"`. -/
def get_approvalStub : Request → Option String :=
  fun _ => some "auto_approved"

/-- `GovernanceMiddleware.process_request`, parameterised by the approval
collaborator (`get_approval req = none` models `_get_approval` returning no
approval; the source stub is `get_approvalStub`).  The audit log write is a
pure side effect (`logger.info`) with no effect on the pipeline state. -/
def process_request (config : GovernanceConfig)
    (get_approval : Request → Option String) (req : Request) :
    Except String Request :=
  if requires_approval config req then
    match get_approval req with
    | none => .error ("Approval required for " ++ req.method.pyStr)
    | some approval =>
        .ok { req with metadata := req.metadata.set "approval" (.str approval) }
  else
    .ok req

end GovernanceMiddleware

/-- The governance stage as a `Middleware` (its `process_response` only
writes an audit log entry and returns the response unchanged). -/
def governanceMiddleware (config : GovernanceConfig)
    (get_approval : Request → Option String) : Middleware :=
  { process_request := GovernanceMiddleware.process_request config get_approval
    process_response := fun resp _ => resp }

namespace CostManagementMiddleware

/-- `CostManagementMiddleware._check_rate_limit`: source stub, always within
limits. -/
def check_rate_limit (user : Json) : Bool :=
  true

/-- `CostManagementMiddleware._check_budget`: source stub, always within
budget. -/
def check_budget (user : Json) : Bool :=
  true

/-- `CostManagementMiddleware.process_request`: read
`metadata.get("user", "anonymous")` and enforce rate limits and budget. -/
def process_request (config : CostConfig) (req : Request) :
    Except String Request :=
  let user := req.metadata.getD "user" (.str "anonymous")
  if config.rate_limits.enabled && !(check_rate_limit user) then
    .error ("Rate limit exceeded for user: " ++ user.pyStr)
  else if config.budget.enabled && !(check_budget user) then
    .error ("Budget limit exceeded for user: " ++ user.pyStr)
  else
    .ok req

/-- `CostManagementMiddleware.process_response`: record the (stubbed,
constant `0.001`) cost estimate in `response.metadata["cost_usd"]`; usage
tracking is a pure side effect. -/
def process_response (config : CostConfig) (resp : Response) (req : Request) :
    Response :=
  { resp with metadata := resp.metadata.set "cost_usd" (.num (1 / 1000)) }

end CostManagementMiddleware

/-- The cost-management stage as a `Middleware`. -/
def costManagementMiddleware (config : CostConfig) : Middleware :=
  { process_request := CostManagementMiddleware.process_request config
    process_response := CostManagementMiddleware.process_response config }

/-- Modelled from the spec: the Identity/Access collaborator
`authenticate(Request) -> Principal | Unauthenticated` resolving no user (an
unauthenticated request).  The source `_authenticate` is a TODO stub that
always returns `"demo_user"`, so the failing case comes from the spec's
collaborator contract. -/
def denyAuthenticate : Request → Option String :=
  fun _ => none

/-- Modelled from the spec: the Governance collaborator
`requestApproval(Request) -> ApprovalToken | None` granting no approval.
The source `_get_approval` is a TODO stub that always returns
`"auto_approved"`, so the denial case comes from the spec's collaborator
contract. -/
def denyApproval : Request → Option String :=
  fun _ => none

/-- Telemetry stage followed by an aborting security stage (authentication
collaborator resolves no user) followed by cost management. -/
def wAbortPre : List Middleware := [observabilityMiddleware 5]

/-- The aborting stage of the concrete abort scenario. -/
def wAbortMw : Middleware := securityMiddleware denyAuthenticate true

/-- The stage after the aborting one in the concrete abort scenario. -/
def wAbortPost : List Middleware := [costManagementMiddleware ⟨true, ⟨true⟩, ⟨true⟩⟩]

/-- Raw request bytes of the concrete abort scenario. -/
def wAbortRaw : Option Json :=
  some (.obj (.cons "method" (.str "tools.list") (.cons "id" (.str "42") .nil)))

/-- Decoded request of the concrete abort scenario. -/
def wAbortReq : Request :=
  { method := .str "tools.list", params := .obj .nil, id := .str "42",
    jsonrpc := .str "2.0", metadata := .nil, timestamp := 5 }

/-- The request after the telemetry stage stamped its start time. -/
def wAbortReq' : Request :=
  { wAbortReq with metadata := .cons "start_time" (.num 5) .nil }

/-- A backend that would answer successfully, were it ever reached. -/
def wAbortRouter : Router := fun _ => .ok (some (.obj .nil))

/-- The full production chain — security, observability, governance, cost —
with the source's collaborator stubs. -/
def wChainFull : List Middleware :=
  [securityMiddleware SecurityMiddleware.authenticateStub true,
   observabilityMiddleware 7,
   governanceMiddleware ⟨[], ⟨true⟩⟩ GovernanceMiddleware.get_approvalStub,
   costManagementMiddleware ⟨true, ⟨true⟩, ⟨true⟩⟩]

/-- A request processed by the full production chain. -/
def wFullReq : Request :=
  { method := .str "tools.call", params := .obj .nil, id := .str "7",
    jsonrpc := .str "2.0", metadata := .nil, timestamp := 0 }

/-- `wFullReq` after the full forward traversal (user resolved, start time
stamped). -/
def wFullReqDone : Request :=
  { wFullReq with metadata := JsonFields.cons "user" (.str "demo_user") (JsonFields.cons "start_time" (.num 7) .nil) }

/-- A backend success response fed to the response traversal. -/
def wResp : Response :=
  { result := .str "ok", error := .null, id := .str "7", jsonrpc := .str "2.0",
    metadata := .nil, timestamp := 0 }

/-- Security (failing authentication collaborator) followed by telemetry. -/
def c4Chain : List Middleware :=
  [securityMiddleware denyAuthenticate true, observabilityMiddleware 5]

/-- Raw bytes of the unauthenticated request. -/
def c4Raw : Option Json :=
  some (.obj (.cons "method" (.str "tools.list") (.cons "id" (.str "9") .nil)))

/-- Decoded form of `c4Raw` (at `now = 5`). -/
def c4Req : Request :=
  { method := .str "tools.list", params := .obj .nil, id := .str "9",
    jsonrpc := .str "2.0", metadata := .nil, timestamp := 5 }

/-- Backend for the unauthenticated scenario (never reached). -/
def c4Router : Router := fun _ => .ok (some (.obj .nil))

/-- Governance configuration with an approval rule covering
`issues.close`. -/
def govCloseCfg : GovernanceConfig :=
  ⟨[⟨"close-rule", ["issues.close"], [], 1, 3600⟩], ⟨true⟩⟩

/-- A chain whose governance stage's approval collaborator grants nothing. -/
def govDenyChain : List Middleware :=
  [governanceMiddleware govCloseCfg denyApproval]

/-- Raw bytes of the request with method `issues.close` and id `"1"`. -/
def govDenyRaw : Option Json :=
  some (.obj (.cons "method" (.str "issues.close") (.cons "id" (.str "1") .nil)))

/-- Decoded form of `govDenyRaw` (at `now = 0`). -/
def govDenyReq : Request :=
  { method := .str "issues.close", params := .obj .nil, id := .str "1",
    jsonrpc := .str "2.0", metadata := .nil, timestamp := 0 }

/-- Backend of the governance scenario (never reached). -/
def govDenyRouter : Router := fun _ => .ok (some (.obj .nil))

/-- Backend bytes carrying both `result` and `error`. -/
def bothSetRaw : Option Json :=
  some (.obj (.cons "result" (.num 1) (.cons "error"
    (.obj (.cons "code" (.num 1) (.cons "message" (.str "boom") .nil))) .nil)))

/-- A request carrying middleware metadata. -/
def metaReq : Request :=
  { method := .str "m", params := .obj .nil, id := .str "1",
    jsonrpc := .str "2.0",
    metadata := .cons "user" (.str "alice") .nil, timestamp := 0 }

/-- A response carrying both a result and a truthy error. -/
def bothSetResp : Response :=
  { result := .num 7,
    error := .obj (.cons "code" (.num (-1)) (.cons "message" (.str "x") .nil)),
    id := .str "9", jsonrpc := .str "2.0", metadata := .nil, timestamp := 0 }

/-- A response whose `error` is the empty mapping (falsy in Python). -/
def emptyErrResp : Response :=
  { result := .str "ok", error := .obj .nil, id := .str "3",
    jsonrpc := .str "2.0", metadata := .nil, timestamp := 0 }

/-! ## Theorems -/

/-- The instrumented handler agrees with the plain embedding of
`handle_request`. -/
theorem handle_request_eq_T (chain : List Middleware) (router : Router)
    (freshId : String) (now : Rat) (raw : Option Json) :
    handle_request chain router freshId now raw =
      (handle_requestT chain router freshId now raw).client_response.to_bytes := by
  unfold handle_request handle_requestT
  cases Request.from_bytes raw freshId now with
  | error e => rfl
  | ok request =>
      simp only [bind, Except.bind]
      cases processRequest chain request with
      | error e => rfl
      | ok processed =>
          dsimp only
          cases router processed.to_bytes with
          | error e => rfl
          | ok raw_response =>
              dsimp only
              cases Response.from_bytes raw_response now with
              | error e => rfl
              | ok response => rfl

/-- `process_request` over a concatenated chain: the second part runs only if
the first part completed without raising. -/
theorem processRequest_append (l1 l2 : List Middleware) (req : Request) :
    processRequest (l1 ++ l2) req =
      match processRequest l1 req with
      | .ok r => processRequest l2 r
      | .error e => .error e := by
  induction l1 generalizing req with
  | nil => rfl
  | cons mw rest ih =>
      simp only [List.cons_append, processRequest, bind, Except.bind]
      cases mw.process_request req with
      | error e => rfl
      | ok req' => exact ih req'

/-- When `process_request` completes without raising, every stage is visited,
in configured order. -/
theorem requestVisitOrderAux_of_ok (l : List Middleware) (req r : Request)
    (i : Nat) (h : processRequest l req = .ok r) :
    requestVisitOrderAux l req i = List.range' i l.length := by
  induction l generalizing req i with
  | nil => rfl
  | cons mw rest ih =>
      simp only [processRequest, bind, Except.bind] at h
      cases hm : mw.process_request req with
      | error e => rw [hm] at h; exact absurd h (by simp)
      | ok req' =>
          rw [hm] at h
          simp only [requestVisitOrderAux, hm, List.length_cons, List.range']
          exact congrArg (i :: ·) (ih req' (i + 1) h)

/-- Visit order over a concatenated chain. -/
theorem requestVisitOrderAux_append (l1 l2 : List Middleware) (req : Request)
    (i : Nat) :
    requestVisitOrderAux (l1 ++ l2) req i =
      match processRequest l1 req with
      | .ok r => requestVisitOrderAux l1 req i ++
          requestVisitOrderAux l2 r (i + l1.length)
      | .error _ => requestVisitOrderAux l1 req i := by
  induction l1 generalizing req i with
  | nil => simp [processRequest, requestVisitOrderAux]
  | cons mw rest ih =>
      simp only [List.cons_append, requestVisitOrderAux, processRequest, bind,
        Except.bind]
      cases hm : mw.process_request req with
      | error e => rfl
      | ok req' =>
          dsimp only
          simp only [List.append_eq]
          rw [ih req' (i + 1)]
          cases processRequest rest req' with
          | error e => rfl
          | ok r =>
              simp only [List.length_cons]
              rw [Nat.add_comm rest.length 1, ← Nat.add_assoc]
              rfl

/-- A stage whose `process_request` raises is the last stage visited. -/
theorem requestVisitOrderAux_abort (mw : Middleware) (post : List Middleware)
    (req : Request) (i : Nat) (msg : String)
    (h : mw.process_request req = .error msg) :
    requestVisitOrderAux (mw :: post) req i = [i] := by
  simp [requestVisitOrderAux, h]

/-- The instrumented reverse traversal records exactly the indices of its
input list, in order. -/
theorem responseVisitAux_trace (l : List (Nat × Middleware)) (resp : Response)
    (req : Request) : (responseVisitAux l resp req).2 = l.map Prod.fst := by
  induction l generalizing resp with
  | nil => rfl
  | cons p rest ih =>
      obtain ⟨i, mw⟩ := p
      simp only [responseVisitAux, List.map_cons]
      rw [← ih (mw.process_response resp req)]

/-- The instrumented reverse traversal computes the same response as the
plain `process_response` fold. -/
theorem responseVisitAux_fst (l : List (Nat × Middleware)) (resp : Response)
    (req : Request) :
    (responseVisitAux l resp req).1 =
      (l.map Prod.snd).foldl (fun r mw => mw.process_response r req) resp := by
  induction l generalizing resp with
  | nil => rfl
  | cons p rest ih =>
      obtain ⟨i, mw⟩ := p
      simp only [responseVisitAux, List.map_cons, List.foldl_cons]
      exact ih (mw.process_response resp req)

/-- The instrumented `process_response` agrees with the plain embedding. -/
theorem processResponseT_fst (chain : List Middleware) (resp : Response)
    (req : Request) :
    (processResponseT chain resp req).1 = processResponse chain resp req := by
  unfold processResponseT processResponse
  rw [responseVisitAux_fst]
  congr 1
  simp

/-- Claim C1: for every request and middleware chain, if some stage's
`process_request` raises, the abort propagates out of the chain, no later
stage's `process_request` runs (the stages visited are exactly those up to
and including the aborting one), the router's `forward` is never invoked,
and the handler jumps directly to the error `Response` built from the abort
reason. -/
theorem abort_short_circuits_chain (pre post : List Middleware) (mw : Middleware)
    (req req' : Request) (msg : String) (router : Router) (freshId : String)
    (now : Rat) (raw : Option Json)
    (hpre : processRequest pre req = .ok req')
    (habort : mw.process_request req' = .error msg)
    (hdec : Request.from_bytes raw freshId now = .ok req) :
    processRequest (pre ++ mw :: post) req = .error msg ∧
    requestVisitOrder (pre ++ mw :: post) req = List.range (pre.length + 1) ∧
    (handle_requestT (pre ++ mw :: post) router freshId now raw).router_called = false ∧
    (handle_requestT (pre ++ mw :: post) router freshId now raw).client_response =
      Response.errorResponse msg (-32603) ∧
    handle_request (pre ++ mw :: post) router freshId now raw =
      (Response.errorResponse msg (-32603)).to_bytes := by
  have h1 : processRequest (pre ++ mw :: post) req = .error msg := by
    rw [processRequest_append, hpre]
    simp [processRequest, habort, bind, Except.bind]
  have h2 : requestVisitOrder (pre ++ mw :: post) req = List.range (pre.length + 1) := by
    unfold requestVisitOrder
    rw [requestVisitOrderAux_append, hpre]
    dsimp only
    rw [requestVisitOrderAux_of_ok pre req req' 0 hpre,
        requestVisitOrderAux_abort mw post req' (0 + pre.length) msg habort]
    rw [Nat.zero_add, ← List.range_eq_range', ← List.range_succ]
  have h3 : handle_requestT (pre ++ mw :: post) router freshId now raw =
      ⟨false, false, Response.errorResponse msg (-32603)⟩ := by
    unfold handle_requestT
    rw [hdec]
    dsimp only
    rw [h1]
  refine ⟨h1, h2, by rw [h3], by rw [h3], ?_⟩
  rw [handle_request_eq_T, h3]

/-- Claim C1 witness: the abort theorem instantiated at the concrete
scenario. -/
theorem abort_short_circuits_chain_witness :
    processRequest (wAbortPre ++ wAbortMw :: wAbortPost) wAbortReq =
      .error "Authentication failed" ∧
    requestVisitOrder (wAbortPre ++ wAbortMw :: wAbortPost) wAbortReq =
      List.range 2 ∧
    (handle_requestT (wAbortPre ++ wAbortMw :: wAbortPost) wAbortRouter "fresh" 5
      wAbortRaw).router_called = false ∧
    (handle_requestT (wAbortPre ++ wAbortMw :: wAbortPost) wAbortRouter "fresh" 5
      wAbortRaw).client_response =
      Response.errorResponse "Authentication failed" (-32603) ∧
    handle_request (wAbortPre ++ wAbortMw :: wAbortPost) wAbortRouter "fresh" 5
      wAbortRaw =
      (Response.errorResponse "Authentication failed" (-32603)).to_bytes :=
  abort_short_circuits_chain wAbortPre wAbortPost wAbortMw wAbortReq wAbortReq'
    "Authentication failed" wAbortRouter "fresh" 5 wAbortRaw (by rfl) (by rfl) (by rfl)

/-- Claim C3: for every middleware chain (every ordering and length), and
every request on which the forward traversal completes (the only case in
which the server invokes the response traversal), `process_response` visits
the stages in exactly the reverse of the order `process_request` visited
them. -/
theorem response_visits_reverse_of_request (chain : List Middleware)
    (req r : Request) (resp : Response)
    (h : processRequest chain req = .ok r) :
    (processResponseT chain resp req).2 = (requestVisitOrder chain req).reverse := by
  unfold processResponseT requestVisitOrder
  rw [responseVisitAux_trace, requestVisitOrderAux_of_ok chain req r 0 h,
      ← List.range_eq_range']
  simp

/-- Claim C3 witness: the reverse-traversal theorem instantiated at the full
production chain. -/
theorem response_visits_reverse_of_request_witness :
    processRequest wChainFull wFullReq = .ok wFullReqDone ∧
    (processResponseT wChainFull wResp wFullReq).2 =
      (requestVisitOrder wChainFull wFullReq).reverse :=
  ⟨by rfl, response_visits_reverse_of_request wChainFull wFullReq wFullReqDone wResp
    (by rfl)⟩

/-- Claim C4 counterexample: on an unauthenticated request the abort-produced
error `Response` does NOT flow through the chain's `process_response` — the
telemetry stage never runs on it and no `duration_seconds` metadata is
recorded on the error `Response`, contrary to the claim. -/
theorem abort_response_lacks_duration :
    (handle_requestT c4Chain c4Router "fresh" 5 c4Raw).response_traversed = false ∧
    (handle_requestT c4Chain c4Router "fresh" 5 c4Raw).client_response.error =
      .obj (.cons "code" (.num (-32603))
        (.cons "message" (.str "Authentication failed") .nil)) ∧
    (handle_requestT c4Chain c4Router "fresh" 5 c4Raw).client_response.metadata.lookup
      "duration_seconds" = none :=
  ⟨by rfl, by rfl, by rfl⟩

/-- Claim C4 (amended): when a stage aborts request processing, the error
`Response` is returned directly — it does not flow through the chain's
`process_response`, so no `duration_seconds` metadata is recorded on it; and
the security stage raises before assigning `metadata["user"]`, so an
unauthenticated request never gets a user recorded. -/
theorem abort_response_skips_telemetry (chain : List Middleware) (router : Router)
    (freshId : String) (now : Rat) (raw : Option Json) (req req2 : Request)
    (msg : String) (authenticate : Request → Option String) (rbac : Bool)
    (hdec : Request.from_bytes raw freshId now = .ok req)
    (habort : processRequest chain req = .error msg)
    (hauth : authenticate req2 = none) :
    (handle_requestT chain router freshId now raw).response_traversed = false ∧
    (handle_requestT chain router freshId now raw).client_response =
      Response.errorResponse msg (-32603) ∧
    (handle_requestT chain router freshId now raw).client_response.metadata.lookup
      "duration_seconds" = none ∧
    SecurityMiddleware.process_request authenticate rbac req2 =
      .error "Authentication failed" := by
  have h3 : handle_requestT chain router freshId now raw =
      ⟨false, false, Response.errorResponse msg (-32603)⟩ := by
    unfold handle_requestT
    rw [hdec]
    dsimp only
    rw [habort]
  refine ⟨by rw [h3], by rw [h3], by rw [h3]; rfl, ?_⟩
  unfold SecurityMiddleware.process_request
  rw [hauth]

/-- Claim C4 witness: the amended theorem instantiated at the concrete
unauthenticated scenario. -/
theorem abort_response_skips_telemetry_witness :
    (handle_requestT c4Chain c4Router "fresh" 5 c4Raw).response_traversed = false ∧
    (handle_requestT c4Chain c4Router "fresh" 5 c4Raw).client_response =
      Response.errorResponse "Authentication failed" (-32603) ∧
    (handle_requestT c4Chain c4Router "fresh" 5 c4Raw).client_response.metadata.lookup
      "duration_seconds" = none ∧
    SecurityMiddleware.process_request denyAuthenticate true c4Req =
      .error "Authentication failed" :=
  abort_response_skips_telemetry c4Chain c4Router "fresh" 5 c4Raw c4Req c4Req
    "Authentication failed" denyAuthenticate true (by rfl) (by rfl) (by rfl)

/-- Claim C2, evaluated at the failing input: the request carries id `"1"`,
but the abort-produced error `Response` carries id `None` — `Response.error`
never copies the request id, so the correlation invariant is violated on the
abort path. -/
theorem error_response_id_not_echoed :
    Request.from_bytes govDenyRaw "fresh" 0 = .ok govDenyReq ∧
    (handle_requestT govDenyChain govDenyRouter "fresh" 0 govDenyRaw).client_response.id
      = Json.null ∧
    Json.null ≠ govDenyReq.id :=
  ⟨by rfl, by rfl, by decide⟩

/-- Claim C8 counterexample: with an approval rule matching `issues.close`
and no approval granted, the router is indeed never called, but the error
response carries id `None` (not `"1"`), code `-32603` (not `-32001`) and
message `"Approval required for issues.close"` (not `"approval required"`). -/
theorem governance_abort_wire_shape :
    (handle_requestT govDenyChain govDenyRouter "fresh" 0 govDenyRaw).router_called
      = false ∧
    (handle_requestT govDenyChain govDenyRouter "fresh" 0 govDenyRaw).client_response
      = Response.errorResponse "Approval required for issues.close" (-32603) ∧
    (handle_requestT govDenyChain govDenyRouter "fresh" 0 govDenyRaw).client_response.id
      ≠ Json.str "1" ∧
    (handle_requestT govDenyChain govDenyRouter "fresh" 0
        govDenyRaw).client_response.error.hasKey "code" = true ∧
    (handle_requestT govDenyChain govDenyRouter "fresh" 0
        govDenyRaw).client_response.error ≠
      .obj (.cons "code" (.num (-32001))
        (.cons "message" (.str "approval required") .nil)) :=
  ⟨by rfl, by rfl, by decide, by rfl, by decide⟩

/-- Claim C8 (amended): for a request whose method matches a configured
governance approval rule and whose approval collaborator grants nothing, the
pipeline aborts with `PermissionError("Approval required for <method>")`, the
router is never called, and the client receives the default `-32603` error
`Response` carrying that message and a `None` id. -/
theorem governance_denied_approval_aborts (cfg : GovernanceConfig)
    (router : Router) (freshId : String) (now : Rat) (raw : Option Json)
    (req : Request) (m : String)
    (hdec : Request.from_bytes raw freshId now = .ok req)
    (hm : req.method = .str m)
    (hrule : GovernanceMiddleware.requires_approval cfg req = true) :
    processRequest [governanceMiddleware cfg denyApproval] req =
      .error ("Approval required for " ++ m) ∧
    (handle_requestT [governanceMiddleware cfg denyApproval] router freshId now
      raw).router_called = false ∧
    (handle_requestT [governanceMiddleware cfg denyApproval] router freshId now
      raw).client_response =
      Response.errorResponse ("Approval required for " ++ m) (-32603) := by
  have h1 : processRequest [governanceMiddleware cfg denyApproval] req =
      .error ("Approval required for " ++ m) := by
    simp [processRequest, governanceMiddleware, denyApproval,
      GovernanceMiddleware.process_request,
      hrule, hm, Json.pyStr, bind, Except.bind]
  have h3 : handle_requestT [governanceMiddleware cfg denyApproval] router
      freshId now raw =
      ⟨false, false, Response.errorResponse ("Approval required for " ++ m) (-32603)⟩ := by
    unfold handle_requestT
    rw [hdec]
    dsimp only
    rw [h1]
  exact ⟨h1, by rw [h3], by rw [h3]⟩

/-- Claim C8 witness: the amended theorem instantiated at the concrete
governance-deny scenario. -/
theorem governance_denied_approval_aborts_witness :
    processRequest govDenyChain govDenyReq =
      .error "Approval required for issues.close" ∧
    (handle_requestT govDenyChain govDenyRouter "fresh" 0 govDenyRaw).router_called
      = false ∧
    (handle_requestT govDenyChain govDenyRouter "fresh" 0 govDenyRaw).client_response
      = Response.errorResponse "Approval required for issues.close" (-32603) :=
  governance_denied_approval_aborts govCloseCfg govDenyRouter "fresh" 0 govDenyRaw
    govDenyReq "issues.close" (by rfl) (by rfl) (by rfl)

/-- Claim C5 counterexample: a parseable object missing both required fields
(`{}`) decodes successfully — `method` defaults to `""` and `id` to a fresh
generated id — whereas the claim requires a decode failure when `method`/`id`
are missing. -/
theorem decode_missing_fields_succeeds :
    Request.from_bytes (some (.obj .nil)) "generated-uuid" 0 =
      .ok { method := .str "", params := .obj .nil, id := .str "generated-uuid",
            jsonrpc := .str "2.0", metadata := .nil, timestamp := 0 } := by
  rfl

/-- Claim C5 (amended): decoding fails exactly when the bytes are not
parseable as a JSON object (unparseable bytes, or a parsed value that is not
an object); missing `method`/`id` fields never cause failure (they are
defaulted), and unknown extra fields never cause failure. -/
theorem from_bytes_ok_iff_object (data : Option Json) (freshId : String)
    (now : Rat) :
    (Request.from_bytes data freshId now).isOk = true ↔
      ∃ o, data = some (Json.obj o) := by
  cases data with
  | none => simp [Request.from_bytes, Except.isOk, Except.toBool]
  | some j => cases j <;> simp [Request.from_bytes, Except.isOk, Except.toBool]

/-- Claim C5 witness: a valid envelope carrying an unknown extra field
decodes successfully. -/
theorem from_bytes_ok_iff_object_witness :
    (Request.from_bytes (some (.obj (.cons "unknown_extra" (.bool true)
      (.cons "method" (.str "m") (.cons "id" (.str "1") .nil))))) "g" 0).isOk
      = true :=
  (from_bytes_ok_iff_object _ "g" 0).mpr ⟨_, rfl⟩

/-- Claim C6 counterexample: the `Response` type does not enforce the
exactly-one invariant — decoding backend bytes that carry both members
yields a `Response` instance with both `result` and `error` set (non-null). -/
theorem decoded_response_both_set :
    Response.from_bytes bothSetRaw 0 =
      .ok { result := .num 1,
            error := .obj (.cons "code" (.num 1) (.cons "message" (.str "boom") .nil)),
            id := .null, jsonrpc := .str "2.0", metadata := .nil, timestamp := 0 } ∧
    (Json.num 1) ≠ .null ∧
    (Json.obj (.cons "code" (.num 1) (.cons "message" (.str "boom") .nil))) ≠ .null :=
  ⟨by rfl, by decide, by decide⟩

/-- Claim C6 (amended): the invariant is not enforced on `Response`
instances (a decoded `Response` may carry both members, or neither), but
every envelope the system encodes contains exactly one of the
`result`/`error` members: `to_bytes` emits `error` iff the `error` field is
truthy, and emits `result` otherwise. -/
theorem encoded_response_exactly_one (resp : Response) :
    (resp.to_bytes.hasKey "error" = resp.error.truthy) ∧
    (resp.to_bytes.hasKey "result" = !resp.error.truthy) := by
  unfold Response.to_bytes Json.hasKey
  cases h : resp.error.truthy <;> exact ⟨rfl, rfl⟩

/-- Claim C7 counterexample: decoding the encoding of `metaReq` does not
return `metaReq` — `metadata` is not transmitted on the wire, so the round
trip returns a request with empty metadata. -/
theorem roundtrip_not_identity :
    Request.from_bytes (some metaReq.to_bytes) "f" 0 =
      .ok { metaReq with metadata := .nil } ∧
    Request.from_bytes (some metaReq.to_bytes) "f" 0 ≠ .ok metaReq := by
  refine ⟨by rfl, ?_⟩
  intro hcontra
  rw [show Request.from_bytes (some metaReq.to_bytes) "f" 0 =
    .ok { metaReq with metadata := .nil } from rfl] at hcontra
  injection hcontra with h2
  exact absurd (congrArg Request.metadata h2) (by decide)

/-- Claim C7 (amended): the round trip restores the four wire fields
(`method`, `params`, `id`, `jsonrpc`) exactly, but `metadata` comes back
empty and `timestamp` is the decode-time clock, so full structural equality
holds only for requests with empty metadata and matching timestamp. -/
theorem roundtrip_preserves_wire_fields (req : Request) (freshId : String)
    (now : Rat) :
    Request.from_bytes (some req.to_bytes) freshId now =
      .ok { method := req.method, params := req.params, id := req.id,
            jsonrpc := req.jsonrpc, metadata := .nil, timestamp := now } := by
  rfl

/-- Claim C10 counterexample: a `Response` carrying both `result` and a
truthy `error` is encoded as an ERROR envelope — the result, not the error,
is silently dropped, contrary to the claim's reading that such a response is
encoded as a success envelope. -/
theorem both_set_encodes_error_envelope :
    bothSetResp.to_bytes =
      .obj (.cons "jsonrpc" (.str "2.0") (.cons "id" (.str "9")
        (.cons "error" (.obj (.cons "code" (.num (-1))
          (.cons "message" (.str "x") .nil))) .nil))) ∧
    bothSetResp.to_bytes.hasKey "result" = false :=
  ⟨by rfl, by rfl⟩

/-- Claim C10 (amended): `to_bytes` includes the `error` member iff the
`error` field is truthy, and otherwise includes `result`; a `Response` whose
`error` is an empty mapping is encoded as a success envelope with the result
value (`null` if unset) and the error silently dropped, while a `Response`
carrying both a result and a truthy error is encoded as an error envelope
with the result silently dropped. -/
theorem to_bytes_member_selection (resp : Response) :
    (resp.error = Json.obj .nil →
      resp.to_bytes = .obj (.cons "jsonrpc" resp.jsonrpc (.cons "id" resp.id
        (.cons "result" resp.result .nil)))) ∧
    (resp.error.truthy = true →
      resp.to_bytes = .obj (.cons "jsonrpc" resp.jsonrpc (.cons "id" resp.id
        (.cons "error" resp.error .nil)))) := by
  constructor
  · intro h
    unfold Response.to_bytes
    rw [h]
    rfl
  · intro h
    unfold Response.to_bytes
    rw [h]
    rfl

/-- Claim C10 witness: the member-selection theorem instantiated at a
response with an empty-mapping error and at one with both members set. -/
theorem to_bytes_member_selection_witness :
    emptyErrResp.to_bytes =
      .obj (.cons "jsonrpc" (.str "2.0") (.cons "id" (.str "3")
        (.cons "result" (.str "ok") .nil))) ∧
    bothSetResp.to_bytes =
      .obj (.cons "jsonrpc" (.str "2.0") (.cons "id" (.str "9")
        (.cons "error" bothSetResp.error .nil))) :=
  ⟨(to_bytes_member_selection emptyErrResp).1 rfl,
   (to_bytes_member_selection bothSetResp).2 rfl⟩
